import Mathlib

/-!
Shallow embedding of the appc-daemon external-plugin subsystem
(`src/packages/appcd-plugin/src/external-plugin.js`) and of the plugin
descriptor loader (`PluginInfo`).  JavaScript objects are modelled as Lean
structures, JS truthiness of optional fields is made explicit, and the
side effects of each handler (tunnel messages sent, process exits,
stream teardowns) are reified as values so that theorems can speak about
them.
-/

/-- JS truthiness of an optional number field: `undefined`/`null` and `0` are falsy. -/
def jsTruthyNat : Option Nat → Bool
  | none => false
  | some n => n != 0

/-- JS truthiness of an optional string field: `undefined`/`null` and `""` are falsy. -/
def jsTruthyStr : Option String → Bool
  | none => false
  | some s => s != ""

/-- JS falsiness test used by `if (!this.info.error)`. -/
def jsFalsyStrOpt (o : Option String) : Bool :=
  match o with
  | none => true
  | some s => s == ""

/-- JS `a || b` on an optional number (`err.status || 500`): falsy (absent or 0) picks the default. -/
def jsOrNatOpt (o : Option Nat) (d : Nat) : Nat :=
  match o with
  | none => d
  | some n => if n = 0 then d else n

/-- JS `a || b` on a string (`err.message || err`): empty string picks the default. -/
def jsOrStrVal (s : String) (d : String) : String :=
  if s = "" then d else s

/-- JS `a || b` on an optional string (`pkgJson.main || 'index.js'`). -/
def jsOrStrOpt (o : Option String) (d : String) : String :=
  match o with
  | none => d
  | some s => if s = "" then d else s

/-! ## Tunnel request and the child-side `appcd.call` global (external-plugin.js lines 63-73) -/

/-- A dispatch request forwarded over the tunnel: `{ path, data }`. -/
structure TunnelRequest where
  path : String
  data : String
deriving DecidableEq, Repr

/-- Result of invoking the child-side `globals.appcd.call` entry point:
which message (if any) was written to the tunnel transport, and the
rejection message (if any) of the returned promise. -/
structure AppcdCallResult where
  sent : Option TunnelRequest
  rejection : Option String
deriving DecidableEq, Repr

/-- `globals.appcd.call` (external-plugin.js lines 63-73): if `this.tunnel`
is not set, return a promise rejected with `Error('Tunnel not initialized!')`;
otherwise send `{ path, data }` over the tunnel. -/
def appcdGlobalCall (tunnelPresent : Bool) (path : String) (data : String) : AppcdCallResult :=
  if tunnelPresent then
    { sent := some { path := path, data := data }, rejection := none }
  else
    { sent := none, rejection := some "Tunnel not initialized!" }

/-! ## Parent-side `dispatch(ctx, next)` (external-plugin.js lines 85-117) -/

/-- A reply received over the tunnel for a dispatch request: `{ status, response }`. -/
structure TunnelReply where
  status : Nat
  response : String
deriving DecidableEq, Repr

/-- The dispatcher context relevant to `dispatch`: the request path and
payload, and the mutable `status`/`response` fields filled in from the reply. -/
structure DispatchCtx where
  path : String
  request : String
  status : Option Nat
  response : Option String
deriving DecidableEq, Repr

/-- Outcome of `dispatch`: either it delegated to `next()` or it resolved
with the (mutated) context. -/
inductive DispatchOutcome where
  | next
  | resolved (c : DispatchCtx)
deriving DecidableEq, Repr

/-- Full result of `dispatch`: the message sent over the tunnel (if any)
and the outcome. -/
structure DispatchResult where
  sent : Option TunnelRequest
  outcome : DispatchOutcome
deriving DecidableEq, Repr

/-- `dispatch(ctx, next)` (external-plugin.js lines 85-117): with no tunnel,
return `next()`; otherwise send `{ path: ctx.path, data: ctx.request }` and,
on reply, return `next()` when the status is 404, else set `ctx.status` and
`ctx.response` from the reply and resolve with `ctx`.  The reply is passed
as a parameter since the tunnel round trip is asynchronous I/O. -/
def dispatch (tunnelPresent : Bool) (reply : TunnelReply) (ctx : DispatchCtx) : DispatchResult :=
  if !tunnelPresent then
    { sent := none, outcome := DispatchOutcome.next }
  else if reply.status = 404 then
    { sent := some { path := ctx.path, data := ctx.request }, outcome := DispatchOutcome.next }
  else
    { sent := some { path := ctx.path, data := ctx.request },
      outcome := DispatchOutcome.resolved
        { ctx with status := some reply.status, response := some reply.response } }

/-! ## Stream-to-message relay (external-plugin.js startParent lines 389-428,
startChild lines 202-252) -/

/-- An item emitted on a dispatch response stream.  `type` is the item's
optional `type` field (`"subscribe"`, `"event"`, ...), `sid` its `sid`
field (meaningful on subscribe items), `payload` the rest of the object. -/
structure StreamItem where
  type : Option String
  sid : Nat
  payload : String
deriving DecidableEq, Repr

/-- A message the relay writes to the tunnel: a forwarded stream item, a
terminal `{ sid, type: 'fin' }`, or an `error`-typed message
`{ message, stack, status, type: 'error' }`. -/
inductive TMsg where
  | forwarded (item : StreamItem)
  | fin (sid : Nat)
  | errorMsg (message : String) (stack : String) (status : Nat)
deriving DecidableEq, Repr

/-- Whether a relayed tunnel message is a `fin` message. -/
def isFin : TMsg → Bool
  | TMsg.fin _ => true
  | _ => false

/-- Whether a relayed tunnel message is an `error`-typed message. -/
def isErrorMsg : TMsg → Bool
  | TMsg.errorMsg _ _ _ => true
  | _ => false

/-- Whether a relayed tunnel message is a forwarded stream item. -/
def isForwarded : TMsg → Bool
  | TMsg.forwarded _ => true
  | _ => false

/-- A JS error as observed by the stream `error` handlers: its `message`
(empty string modelling a falsy/absent message, in which case
`err.message || err` falls back to the error value itself, modelled by
`asString`), its `stack`, and its optional `status`. -/
structure JsError where
  message : String
  stack : String
  status : Option Nat
  asString : String
deriving DecidableEq, Repr

/-- How a response stream terminates: a normal `end` event or an `error` event. -/
inductive StreamEnd where
  | ended
  | errored (e : JsError)
deriving DecidableEq, Repr

/-- Delete a subscription id from the registered-streams map
(`delete this.streams[sid]` on a JS object keyed by sid). -/
def streamsDelete (l : List Nat) (s : Nat) : List Nat :=
  l.filter (fun x => x != s)

/-- Register a stream under a subscription id (`this.streams[sid] = response`;
assigning an existing key does not duplicate it). -/
def streamsInsert (l : List Nat) (s : Nat) : List Nat :=
  if s ∈ l then l else s :: l

/-- Parent-side relay state: the captured subscription id (`let sid`) and
the host's stream registry `this.streams` (as its set of registered sids). -/
structure ParentRelayState where
  sid : Option Nat
  streams : List Nat
deriving DecidableEq, Repr

/-- Parent-side `data` handler (lines 396-405): a subscribe item captures
its sid and registers the stream; every item is forwarded with `send(message)`. -/
def parentOnData (st : ParentRelayState) (m : StreamItem) : ParentRelayState × TMsg :=
  if m.type = some "subscribe" then
    ({ sid := some m.sid, streams := streamsInsert st.streams m.sid }, TMsg.forwarded m)
  else
    (st, TMsg.forwarded m)

/-- Run the parent-side `data` handler over a list of emitted items. -/
def parentRelayData : ParentRelayState → List StreamItem → ParentRelayState × List TMsg
  | st, [] => (st, [])
  | st, m :: rest =>
    let p := parentOnData st m
    let r := parentRelayData p.1 rest
    (r.1, p.2 :: r.2)

/-- Parent-side `end` handler (lines 406-416): drop the registration for the
captured sid, then, if a truthy sid was captured, send `{ sid, type: 'fin' }`. -/
def parentOnEnd (st : ParentRelayState) : ParentRelayState × List TMsg :=
  let streams1 :=
    match st.sid with
    | none => st.streams
    | some s => streamsDelete st.streams s
  if jsTruthyNat st.sid then
    ({ sid := st.sid, streams := streams1 }, [TMsg.fin (st.sid.getD 0)])
  else
    ({ sid := st.sid, streams := streams1 }, [])

/-- Parent-side `error` handler (lines 417-428): drop the registration for
the captured sid and emit an `error`-typed message
`{ message: err.message || err, stack: err.stack, status: err.status || 500 }`.
The source writes it with `this.send`; the `send` method lives in
`plugin-base.js`, which is not part of the sources here.
Modelled from the spec: `PluginBase.send` emits the message over the tunnel
("On stream error: emit an error-typed message carrying the error's message
and stack, with status defaulted to 500 if the error carries none"). -/
def parentOnError (st : ParentRelayState) (e : JsError) : ParentRelayState × List TMsg :=
  let streams1 :=
    match st.sid with
    | none => st.streams
    | some s => streamsDelete st.streams s
  ({ sid := st.sid, streams := streams1 },
   [TMsg.errorMsg (jsOrStrVal e.message e.asString) e.stack (jsOrNatOpt e.status 500)])

/-- Full parent-side relay of one response stream: the `data` items in
order, then the terminal `end` or `error` event. -/
def parentRelayRun (items : List StreamItem) (term : StreamEnd) (streams0 : List Nat) :
    ParentRelayState × List TMsg :=
  let d := parentRelayData { sid := none, streams := streams0 } items
  let t :=
    match term with
    | StreamEnd.ended => parentOnEnd d.1
    | StreamEnd.errored e => parentOnError d.1 e
  (t.1, d.2 ++ t.2)

/-- Child-side `data` handler (lines 208-232): a subscribe item captures its
sid; the forwarded copy carries `type = message.type || (sid ? 'event' :
undefined)` with the other fields spread through. -/
def childOnData (sid : Option Nat) (m : StreamItem) : Option Nat × TMsg :=
  let sid1 := if m.type = some "subscribe" then some m.sid else sid
  let ty :=
    if jsTruthyStr m.type then m.type
    else if jsTruthyNat sid1 then some "event" else none
  (sid1, TMsg.forwarded { type := ty, sid := m.sid, payload := m.payload })

/-- Run the child-side `data` handler over a list of emitted items. -/
def childRelayData : Option Nat → List StreamItem → Option Nat × List TMsg
  | sid, [] => (sid, [])
  | sid, m :: rest =>
    let p := childOnData sid m
    let r := childRelayData p.1 rest
    (r.1, p.2 :: r.2)

/-- Child-side `end` handler (lines 233-242): if a truthy sid was captured,
send `{ sid, type: 'fin' }`. -/
def childOnEnd (sid : Option Nat) : List TMsg :=
  if jsTruthyNat sid then [TMsg.fin (sid.getD 0)] else []

/-- Child-side `error` handler (lines 243-252), same message shape as the
parent side (same `this.send`, likewise modelled from the spec). -/
def childOnError (e : JsError) : List TMsg :=
  [TMsg.errorMsg (jsOrStrVal e.message e.asString) e.stack (jsOrNatOpt e.status 500)]

/-- Full child-side relay of one response stream. -/
def childRelayRun (items : List StreamItem) (term : StreamEnd) : Option Nat × List TMsg :=
  let d := childRelayData none items
  let t :=
    match term with
    | StreamEnd.ended => childOnEnd d.1
    | StreamEnd.errored e => childOnError e
  (d.1, d.2 ++ t)

/-- Whether a stream item is a subscribe item (`message.type === 'subscribe'`). -/
def isSubscribeItem (m : StreamItem) : Bool :=
  m.type == some "subscribe"

/-- Whether some emitted item on the stream was a subscribe item. -/
def hasSubscribe (items : List StreamItem) : Bool :=
  items.any isSubscribeItem

/-- The captured sid after processing the items, starting from a given sid. -/
def sidAfter (sid0 : Option Nat) (items : List StreamItem) : Option Nat :=
  items.foldl (fun sid m => if m.type = some "subscribe" then some m.sid else sid) sid0

/-- The sid captured by a relay over the items of one stream. -/
def finalSid (items : List StreamItem) : Option Nat :=
  sidAfter none items

/-! ## Plugin lifecycle states and the process-exit handler
(external-plugin.js startParent lines 498-528) -/

/-- Plugin lifecycle states (`states` from plugin-base). -/
inductive PluginState where
  | stopped
  | starting
  | started
  | stopping
deriving DecidableEq, Repr

/-- The host-side plugin info record (`this.info`), restricted to the fields
the exit handler touches: pid, last exit code, captured error message and
stack, and the lifecycle state. -/
structure PluginInfoState where
  pid : Option Nat
  exitCode : Option Nat
  error : Option String
  stack : Option String
  state : PluginState
deriving DecidableEq, Repr

/-- A `PluginError` as constructed by the exit handler: its message, and the
stack copied from `this.info.stack` when that is truthy (`none` keeps the
constructor's own stack). -/
structure PluginErrorE where
  message : String
  stack : Option String
deriving DecidableEq, Repr

/-- Host-side mutable state touched by the exit handler: the tunnel
reference (present or cleared), the info record, and the filesystem
watchers keyed by directory. -/
structure HostState where
  tunnel : Bool
  info : PluginInfoState
  watchers : List String
deriving DecidableEq, Repr

/-- Everything the exit handler does: the resulting host state, the list of
watchers it closed, the error (if any) passed to `reject` of the pending
`start()` promise, and the arguments of the final `setState` call.
`setState` itself lives in `plugin-base.js`, which is not among the sources;
modelled from the spec (section 4.2) as recording the transition target and
the captured error, which we reify as `finalState`/`finalErr` and mirror
into `info.state`. -/
structure ExitOutcome where
  host : HostState
  closedWatchers : List String
  rejected : Option PluginErrorE
  finalState : PluginState
  finalErr : Option PluginErrorE
deriving DecidableEq, Repr

/-- The synthesized activation-failure message
`` `Failed to activate plugin (code ${data.code})` ``. -/
def synthActivationError (code : Nat) : String :=
  "Failed to activate plugin (code " ++ toString code ++ ")"

/-- The `exit` branch of the child-process event handler (lines 498-528):
clear the tunnel and pid, close and clear every watcher, and — only when
the exit code is truthy — record the exit code and, if the state was
`STARTING`, build a `PluginError` from `this.info.error` (synthesizing
`Failed to activate plugin (code N)` when no error was recorded), copy a
truthy `this.info.stack` onto it, and reject the pending start promise.
Finally `setState(states.STOPPED, err)`. -/
def handleProcessExit (h : HostState) (code : Nat) : ExitOutcome :=
  let closed := h.watchers
  if code = 0 then
    let info1 := { h.info with pid := none, state := PluginState.stopped }
    { host := { tunnel := false, info := info1, watchers := [] },
      closedWatchers := closed,
      rejected := none,
      finalState := PluginState.stopped,
      finalErr := none }
  else if h.info.state = PluginState.starting then
    let errMsg :=
      if jsFalsyStrOpt h.info.error then synthActivationError code else h.info.error.getD ""
    let e : PluginErrorE :=
      { message := errMsg,
        stack := if jsTruthyStr h.info.stack then h.info.stack else none }
    let info1 := { h.info with pid := none, exitCode := some code,
                               error := some errMsg, state := PluginState.stopped }
    { host := { tunnel := false, info := info1, watchers := [] },
      closedWatchers := closed,
      rejected := some e,
      finalState := PluginState.stopped,
      finalErr := some e }
  else
    let info1 := { h.info with pid := none, exitCode := some code,
                               state := PluginState.stopped }
    { host := { tunnel := false, info := info1, watchers := [] },
      closedWatchers := closed,
      rejected := none,
      finalState := PluginState.stopped,
      finalErr := none }

/-! ## The parent-side `unsubscribe` message handler (lines 366-371) -/

/-- A teardown action performed by the parent-side `unsubscribe` handler. -/
inductive ParentAction where
  | endStream (sid : Nat)
deriving DecidableEq, Repr

/-- The `unsubscribe` case of the parent-side tunnel handler (lines 366-371):
`if (this.streams[req.sid]) { this.streams[req.sid].end(); delete
this.streams[req.sid]; }` — end and deregister the stream when the sid is
registered, otherwise do nothing. -/
def handleUnsubscribe (streams : List Nat) (sid : Nat) : List Nat × List ParentAction :=
  if sid ∈ streams then
    (streamsDelete streams sid, [ParentAction.endStream sid])
  else
    (streams, [])

/-! ## Child-side `deactivate` handling (startChild lines 171-195) -/

/-- An observable action of the child runtime while handling `deactivate`. -/
inductive ChildAction where
  | callUnsubscribeConfig (sid : Nat)
  | logWarnMsg (m : String)
  | callDeactivateHook
  | sendResponseOK
  | exitProc (code : Nat)
deriving DecidableEq, Repr

/-- The config-unsubscribe stage (lines 174-185): only runs when
`this.configSubscriptionId` is truthy; a failed unsubscribe call is caught
and logged (`logger.warn`), never rethrown. -/
def unsubscribeStage (configSubscriptionId : Option Nat) (unsubscribeOk : Bool) :
    List ChildAction :=
  match configSubscriptionId with
  | none => []
  | some s =>
    if s = 0 then []
    else if unsubscribeOk then [ChildAction.callUnsubscribeConfig s]
    else [ChildAction.callUnsubscribeConfig s, ChildAction.logWarnMsg "Failed to unsubscribe from config"]

/-- The `deactivate` branch of the child-side tunnel handler (lines 171-195):
best-effort config unsubscribe, then the module's `deactivate` hook when one
is defined (`hookOk` tells whether that hook fulfilled; a rejected hook
breaks the promise chain before the acknowledgment), then
`send(new Response(codes.OK)); process.exit(0)`. -/
def handleDeactivate (configSubscriptionId : Option Nat) (unsubscribeOk : Bool)
    (hookDefined : Bool) (hookOk : Bool) : List ChildAction :=
  let a1 := unsubscribeStage configSubscriptionId unsubscribeOk
  if hookDefined then
    if hookOk then
      a1 ++ [ChildAction.callDeactivateHook, ChildAction.sendResponseOK, ChildAction.exitProc 0]
    else
      a1 ++ [ChildAction.callDeactivateHook]
  else
    a1 ++ [ChildAction.sendResponseOK, ChildAction.exitProc 0]

/-! ## Child-side activation failure (startChild lines 299-309) -/

/-- An observable event of the child runtime during activation. -/
inductive ChildEvent where
  | logErrorEv
  | emitActivated
  | emitActivationError (message : String) (stack : String)
  | exitProcEv (code : Nat)
deriving DecidableEq, Repr

/-- The exit code the child uses for activation failures (`process.exit(6)`,
line 308). -/
def ACTIVATION_FAILURE_EXIT_CODE : Nat := 6

/-- Exit-code classification.
Modelled from the spec: section 6 — `0` is a normal/deactivated exit, the
reserved code marks activation failure, and "any other non-zero code
treated as an unexpected crash"; the parent-side classifier is not among
the sources. -/
def isOrdinaryCrashCode (c : Nat) : Bool :=
  c != 0 && c != ACTIVATION_FAILURE_EXIT_CODE

/-- The tail of `startChild` (lines 297-309): on successful activation emit
`activated`; on a thrown/rejected activation, log the error, emit an
`activation_error` event carrying the error's message and stack, and exit
with the reserved activation-failure code. -/
def activationTail (result : Except JsError Unit) : List ChildEvent :=
  match result with
  | Except.ok _ => [ChildEvent.emitActivated]
  | Except.error e =>
    [ChildEvent.logErrorEv,
     ChildEvent.emitActivationError e.message e.stack,
     ChildEvent.exitProcEv ACTIVATION_FAILURE_EXIT_CODE]

/-! ## Plugin descriptor construction (`PluginInfo`, src/unnamed/part_001) -/

/-- A plugin's `package.json`, restricted to the fields the constructor
reads.  `appcdType` is `pkgJson.appcd && pkgJson.appcd.type` flattened
(`none` when either is missing), `enginesNode` is
`pkgJson.engines && pkgJson.engines.node` flattened likewise. -/
structure PkgJson where
  name : String
  version : String
  main : Option String
  appcdType : Option String
  enginesNode : Option String
deriving DecidableEq, Repr

/-- A plugin's declared type. -/
inductive PluginType where
  | internal
  | external
deriving DecidableEq, Repr

/-- The descriptor produced by a successful `PluginInfo` construction. -/
structure PluginInfoR where
  path : String
  name : String
  version : String
  id : String
  type : PluginType
  nodeVersion : String
deriving DecidableEq, Repr

/-- The `PluginInfo` constructor (part_001 lines 22-104).  Filesystem and
JSON-parsing facts (`isDir`, `isFile`, parse success) are passed as
booleans; `satisfies` stands for `semver.satisfies`.  Checks run in source
order: directory, package.json presence, parse, name, main file; then the
fields are computed, and an internal plugin whose `engines.node`
requirement the running `process.version` does not satisfy throws a
version-mismatch error. -/
def mkPluginInfo (dirExists : Bool) (pkgJsonExists : Bool) (parseOk : Bool)
    (mainFileExists : Bool) (dir : String) (p : PkgJson) (processVersion : String)
    (satisfies : String → String → Bool) : Except String PluginInfoR :=
  if !dirExists then
    Except.error ("Plugin directory does not exist: " ++ dir)
  else if !pkgJsonExists then
    Except.error ("Plugin directory does not contain a package.json: " ++ dir)
  else if !parseOk then
    Except.error ("Error reading plugin package.json: " ++ dir)
  else if p.name = "" then
    Except.error ("Plugin package.json doesn\x27t have a name: " ++ dir)
  else if !mainFileExists then
    Except.error ("Unable to find main file: " ++ jsOrStrOpt p.main "index.js")
  else
    let ty := if p.appcdType = some "internal" then PluginType.internal else PluginType.external
    let base : PluginInfoR :=
      { path := dir, name := p.name, version := p.version,
        id := p.name ++ "@" ++ p.version, type := ty, nodeVersion := processVersion }
    match p.enginesNode with
    | none => Except.ok base
    | some nv =>
      if nv = "" then Except.ok base
      else if ty = PluginType.internal && !(satisfies processVersion nv) then
        Except.error ("Internal plugin requires Node.js " ++ nv
          ++ ", but core is currently running " ++ processVersion)
      else Except.ok { base with nodeVersion := nv }

/-! ## Theorems -/

/-- C10: calling the child-side forwarding entry point `globals.appcd.call`
while `this.tunnel` is null returns a promise rejected with
`Error('Tunnel not initialized!')` and writes no message to any transport. -/
theorem c10_call_without_tunnel_rejects (path data : String) :
    appcdGlobalCall false path data
      = { sent := none, rejection := some "Tunnel not initialized!" } := rfl

/-- C4: the parent-side `dispatch(ctx, next)` returns `next()` when no
tunnel exists; otherwise it forwards `{ path: ctx.path, data: ctx.request }`
over the tunnel and, on reply, returns `next()` when the reply status is
404 and otherwise resolves with `ctx` mutated to the reply's status and
response. -/
theorem c4_dispatch_forwarding (reply : TunnelReply) (ctx : DispatchCtx) :
    dispatch false reply ctx = { sent := none, outcome := DispatchOutcome.next }
    ∧ (dispatch true reply ctx).sent = some { path := ctx.path, data := ctx.request }
    ∧ (reply.status = 404 → (dispatch true reply ctx).outcome = DispatchOutcome.next)
    ∧ (reply.status ≠ 404 → (dispatch true reply ctx).outcome
        = DispatchOutcome.resolved
            { ctx with status := some reply.status, response := some reply.response }) := by
  refine ⟨rfl, ?_, ?_, ?_⟩
  · by_cases h : reply.status = 404 <;> simp [dispatch, h]
  · intro h; simp [dispatch, h]
  · intro h; simp [dispatch, h]

/-- A concrete dispatcher context for the C4 witness. -/
def c4Ctx : DispatchCtx :=
  { path := "/foo/bar", request := "payload", status := none, response := none }

/-- Witness for C4: concrete non-404 and 404 replies. -/
theorem c4_dispatch_forwarding_witness :
    (dispatch true { status := 200, response := "ok" } c4Ctx).outcome
      = DispatchOutcome.resolved { c4Ctx with status := some 200, response := some "ok" }
    ∧ (dispatch true { status := 404, response := "nf" } c4Ctx).outcome = DispatchOutcome.next :=
  ⟨(c4_dispatch_forwarding { status := 200, response := "ok" } c4Ctx).2.2.2 (by decide),
   (c4_dispatch_forwarding { status := 404, response := "nf" } c4Ctx).2.2.1 (by decide)⟩

/-- Host state of a plugin whose child exits while the lifecycle state is
STARTING (used for C2). -/
def c2Host : HostState :=
  { tunnel := true,
    info := { pid := some 1234, exitCode := none, error := none, stack := none,
              state := PluginState.starting },
    watchers := [] }

/-- C2 counterexample: a child-process exit with code 0 while the state is
STARTING does not reject the in-flight start() promise — the exit handler
only rejects inside `if (data.code)`, which a zero (falsy) exit code skips;
the claim asserts a rejection for every exit while STARTING. -/
theorem c2_counterexample :
    c2Host.info.state = PluginState.starting
    ∧ (handleProcessExit c2Host 0).rejected = none
    ∧ (handleProcessExit c2Host 0).finalState = PluginState.stopped := by
  decide

/-- C2 (amended): for every child-process exit with a NON-ZERO exit code
while the state is STARTING, the in-flight start() promise rejects with the
captured error; if no explicit error was reported via `activation_error`,
the rejection error message is `Failed to activate plugin (code N)`. -/
theorem c2_exit_while_starting_rejects (h : HostState) (code : Nat)
    (hc : code ≠ 0) (hs : h.info.state = PluginState.starting) :
    ∃ e : PluginErrorE,
      (handleProcessExit h code).rejected = some e
      ∧ (handleProcessExit h code).finalErr = some e
      ∧ (handleProcessExit h code).finalState = PluginState.stopped
      ∧ (jsFalsyStrOpt h.info.error = true → e.message = synthActivationError code)
      ∧ (jsFalsyStrOpt h.info.error = false → some e.message = h.info.error) := by
  refine ⟨{ message := if jsFalsyStrOpt h.info.error then synthActivationError code
                       else h.info.error.getD "",
            stack := if jsTruthyStr h.info.stack then h.info.stack else none },
          ?_, ?_, ?_, ?_, ?_⟩
  · simp [handleProcessExit, hc, hs]
  · simp [handleProcessExit, hc, hs]
  · simp [handleProcessExit, hc, hs]
  · intro hf; simp [hf]
  · intro hf
    cases ho : h.info.error with
    | none => rw [ho] at hf; simp [jsFalsyStrOpt] at hf
    | some s => rw [ho] at hf; simp [ho, hf]

/-- Witness for C2 (amended): a concrete non-zero exit code 3 while
STARTING, with no recorded activation error. -/
theorem c2_exit_while_starting_rejects_witness :
    ∃ e : PluginErrorE,
      (handleProcessExit c2Host 3).rejected = some e
      ∧ (handleProcessExit c2Host 3).finalErr = some e
      ∧ (handleProcessExit c2Host 3).finalState = PluginState.stopped
      ∧ (jsFalsyStrOpt c2Host.info.error = true → e.message = synthActivationError 3)
      ∧ (jsFalsyStrOpt c2Host.info.error = false → some e.message = c2Host.info.error) :=
  c2_exit_while_starting_rejects c2Host 3 (by decide) (by decide)

/-- Host state of a running plugin with one registered watcher whose child
is killed externally (used for C3). -/
def c3Host : HostState :=
  { tunnel := true,
    info := { pid := some 4321, exitCode := none, error := none, stack := none,
              state := PluginState.started },
    watchers := ["/plugins/foo/src"] }

/-- C3 counterexample: a child-process exit with the non-zero, non-reserved
code 7 while STARTED transitions to STOPPED but captures NO crash error —
`err` stays undefined outside the STARTING branch, so
`setState(states.STOPPED, err)` receives no error; the claim asserts a
captured crash error. -/
theorem c3_counterexample :
    c3Host.info.state = PluginState.started
    ∧ (7 : Nat) ≠ 0
    ∧ (7 : Nat) ≠ ACTIVATION_FAILURE_EXIT_CODE
    ∧ (handleProcessExit c3Host 7).finalErr = none
    ∧ (handleProcessExit c3Host 7).rejected = none := by
  decide

/-- C3 (amended): for every child-process exit with a non-zero exit code
while STARTED, the lifecycle transitions to STOPPED with no captured error
(the handler does not synthesize a crash error), the exit code is recorded,
the Tunnel reference is cleared, and every filesystem watcher registered for
the instance is closed and removed. -/
theorem c3_exit_while_started (h : HostState) (code : Nat)
    (hc : code ≠ 0) (hs : h.info.state = PluginState.started) :
    (handleProcessExit h code).finalState = PluginState.stopped
    ∧ (handleProcessExit h code).finalErr = none
    ∧ (handleProcessExit h code).rejected = none
    ∧ (handleProcessExit h code).host.info.exitCode = some code
    ∧ (handleProcessExit h code).host.tunnel = false
    ∧ (handleProcessExit h code).host.watchers = []
    ∧ (handleProcessExit h code).closedWatchers = h.watchers := by
  have hns : h.info.state ≠ PluginState.starting := by
    rw [hs]; intro hcon; cases hcon
  simp [handleProcessExit, hc, hns]

/-- Witness for C3 (amended): the concrete STARTED host with one watcher
and exit code 7. -/
theorem c3_exit_while_started_witness :
    (handleProcessExit c3Host 7).finalState = PluginState.stopped
    ∧ (handleProcessExit c3Host 7).finalErr = none
    ∧ (handleProcessExit c3Host 7).rejected = none
    ∧ (handleProcessExit c3Host 7).host.info.exitCode = some 7
    ∧ (handleProcessExit c3Host 7).host.tunnel = false
    ∧ (handleProcessExit c3Host 7).host.watchers = []
    ∧ (handleProcessExit c3Host 7).closedWatchers = c3Host.watchers :=
  c3_exit_while_started c3Host 7 (by decide) (by decide)

/-- C6: a `deactivate` message makes the child first attempt the config
unsubscribe (a failure only adds a logged warning and does not abort the
shutdown), then invoke the module's deactivate hook when one is defined,
then send the success acknowledgment, then exit with code 0. -/
theorem c6_deactivate_graceful (csid : Option Nat) (unsubscribeOk : Bool) (hookDefined : Bool) :
    handleDeactivate csid unsubscribeOk hookDefined true
      = unsubscribeStage csid unsubscribeOk
        ++ (if hookDefined then [ChildAction.callDeactivateHook] else [])
        ++ [ChildAction.sendResponseOK, ChildAction.exitProc 0]
    ∧ unsubscribeStage csid false
      = unsubscribeStage csid true
        ++ (if jsTruthyNat csid then
              [ChildAction.logWarnMsg "Failed to unsubscribe from config"] else []) := by
  constructor
  · cases hookDefined <;> simp [handleDeactivate]
  · cases csid with
    | none => simp [unsubscribeStage, jsTruthyNat]
    | some s =>
      by_cases hzero : s = 0 <;> simp [unsubscribeStage, jsTruthyNat, hzero]

/-- Whether a child event is a `process.exit` event. -/
def isExitEvent : ChildEvent → Bool
  | ChildEvent.exitProcEv _ => true
  | _ => false

/-- C7: a failed child-side activation emits an `activation_error` tunnel
event carrying the error's message and stack before the process exits, and
the child exits with the single reserved code 6, which is non-zero and not
classified as an ordinary crash code. -/
theorem c7_activation_failure (e : JsError) :
    activationTail (Except.error e)
      = [ChildEvent.logErrorEv,
         ChildEvent.emitActivationError e.message e.stack,
         ChildEvent.exitProcEv ACTIVATION_FAILURE_EXIT_CODE]
    ∧ (activationTail (Except.error e)).filter isExitEvent
        = [ChildEvent.exitProcEv ACTIVATION_FAILURE_EXIT_CODE]
    ∧ ACTIVATION_FAILURE_EXIT_CODE ≠ 0
    ∧ isOrdinaryCrashCode ACTIVATION_FAILURE_EXIT_CODE = false
    ∧ (∀ c : Nat, isOrdinaryCrashCode c = true → c ≠ ACTIVATION_FAILURE_EXIT_CODE) := by
  refine ⟨rfl, rfl, by decide, by decide, ?_⟩
  intro c hc
  simp [isOrdinaryCrashCode] at hc
  exact hc.2

/-- A concrete activation error for the C7 witness. -/
def c7Err : JsError :=
  { message := "boom", stack := "at activate", status := none, asString := "Error: boom" }

/-- Witness for C7: the events at a concrete activation error, and that the
ordinary crash code 3 differs from the reserved activation-failure code. -/
theorem c7_activation_failure_witness :
    activationTail (Except.error c7Err)
      = [ChildEvent.logErrorEv,
         ChildEvent.emitActivationError "boom" "at activate",
         ChildEvent.exitProcEv ACTIVATION_FAILURE_EXIT_CODE]
    ∧ (3 : Nat) ≠ ACTIVATION_FAILURE_EXIT_CODE :=
  ⟨(c7_activation_failure c7Err).1,
   (c7_activation_failure c7Err).2.2.2.2 3 (by decide)⟩

/-- The sid being unsubscribed is never registered after its own deletion. -/
theorem not_mem_streamsDelete_self (l : List Nat) (s : Nat) : s ∉ streamsDelete l s := by
  simp [streamsDelete]

/-- C8: a parent-side `unsubscribe` for a registered sid ends the stream
and removes the registration; for an unknown or already-removed sid it is a
no-op with no teardown action; a second unsubscribe for the same sid is
always a no-op; and (on a duplicate-free registry) a sid is registered at
most once, a property registration and deletion preserve. -/
theorem c8_unsubscribe_idempotent (streams : List Nat) (sid : Nat) :
    (sid ∈ streams →
        handleUnsubscribe streams sid = (streamsDelete streams sid, [ParentAction.endStream sid])
        ∧ sid ∉ (handleUnsubscribe streams sid).1)
    ∧ (sid ∉ streams → handleUnsubscribe streams sid = (streams, []))
    ∧ handleUnsubscribe (handleUnsubscribe streams sid).1 sid
        = ((handleUnsubscribe streams sid).1, [])
    ∧ (streams.Nodup →
        (streamsInsert streams sid).count sid ≤ 1
        ∧ (streamsInsert streams sid).Nodup
        ∧ (streamsDelete streams sid).Nodup) := by
  refine ⟨?_, ?_, ?_, ?_⟩
  · intro hmem
    refine ⟨by simp [handleUnsubscribe, hmem], ?_⟩
    simp [handleUnsubscribe, hmem]
    exact not_mem_streamsDelete_self streams sid
  · intro hmem
    simp [handleUnsubscribe, hmem]
  · by_cases hmem : sid ∈ streams
    · have h1 : (handleUnsubscribe streams sid).1 = streamsDelete streams sid := by
        simp [handleUnsubscribe, hmem]
      rw [h1]
      simp [handleUnsubscribe, not_mem_streamsDelete_self streams sid]
    · have h1 : (handleUnsubscribe streams sid).1 = streams := by
        simp [handleUnsubscribe, hmem]
      rw [h1]
      simp [handleUnsubscribe, hmem]
  · intro hnd
    have hins : (streamsInsert streams sid).Nodup := by
      by_cases hmem : sid ∈ streams
      · simpa [streamsInsert, hmem] using hnd
      · simpa [streamsInsert, hmem] using List.nodup_cons.mpr ⟨hmem, hnd⟩
    refine ⟨List.nodup_iff_count_le_one.mp hins sid, hins, hnd.filter _⟩

/-- Witness for C8: registry `[3, 4]`, first unsubscribe of sid 3 tears the
stream down, the sid 9 unsubscribe and the repeated sid 3 unsubscribe are
no-ops, and the registry stays duplicate-free. -/
theorem c8_unsubscribe_idempotent_witness :
    (handleUnsubscribe [3, 4] 3 = (streamsDelete [3, 4] 3, [ParentAction.endStream 3])
      ∧ 3 ∉ (handleUnsubscribe [3, 4] 3).1)
    ∧ handleUnsubscribe [3, 4] 9 = ([3, 4], [])
    ∧ handleUnsubscribe (handleUnsubscribe [3, 4] 3).1 3 = ((handleUnsubscribe [3, 4] 3).1, [])
    ∧ ((streamsInsert [3, 4] 3).count 3 ≤ 1
        ∧ (streamsInsert [3, 4] 3).Nodup
        ∧ (streamsDelete [3, 4] 3).Nodup) :=
  ⟨(c8_unsubscribe_idempotent [3, 4] 3).1 (by decide),
   (c8_unsubscribe_idempotent [3, 4] 9).2.1 (by decide),
   (c8_unsubscribe_idempotent [3, 4] 3).2.2.1,
   (c8_unsubscribe_idempotent [3, 4] 3).2.2.2 (by decide)⟩

/-- C9: a plugin whose manifest marks it internal and declares an
`engines.node` requirement the host runtime's version does not satisfy
fails descriptor construction with the version-mismatch error instead of
producing a descriptor. -/
theorem c9_internal_node_version_mismatch (dir : String) (p : PkgJson)
    (processVersion : String) (satisfies : String → String → Bool) (nv : String)
    (hname : p.name ≠ "") (hty : p.appcdType = some "internal")
    (hnv : p.enginesNode = some nv) (hnvne : nv ≠ "")
    (hsat : satisfies processVersion nv = false) :
    mkPluginInfo true true true true dir p processVersion satisfies
      = Except.error ("Internal plugin requires Node.js " ++ nv
          ++ ", but core is currently running " ++ processVersion) := by
  simp [mkPluginInfo, hname, hty, hnv, hnvne, hsat]

/-- A concrete internal-plugin manifest for the C9 witness. -/
def c9Pkg : PkgJson :=
  { name := "foo", version := "1.2.3", main := some "index.js",
    appcdType := some "internal", enginesNode := some ">=10.0.0" }

/-- Witness for C9: a concrete internal plugin requiring Node >=10 while
the host runs v8.0.0 under a semver oracle that reports no match. -/
theorem c9_internal_node_version_mismatch_witness :
    mkPluginInfo true true true true "/plugins/foo" c9Pkg "v8.0.0" (fun _ _ => false)
      = Except.error ("Internal plugin requires Node.js >=10.0.0"
          ++ ", but core is currently running " ++ "v8.0.0") :=
  c9_internal_node_version_mismatch "/plugins/foo" c9Pkg "v8.0.0" (fun _ _ => false)
    ">=10.0.0" (by decide) (by decide) (by decide) (by decide) (by decide)

/-- The parent-side data handler forwards every item unchanged. -/
theorem parentOnData_snd (st : ParentRelayState) (m : StreamItem) :
    (parentOnData st m).2 = TMsg.forwarded m := by
  unfold parentOnData; split <;> rfl

/-- The sid captured by one parent-side data step. -/
theorem parentOnData_fst_sid (st : ParentRelayState) (m : StreamItem) :
    (parentOnData st m).1.sid
      = if m.type = some "subscribe" then some m.sid else st.sid := by
  unfold parentOnData; split <;> simp_all

/-- The parent-side data phase forwards exactly the emitted items, in order. -/
theorem parentRelayData_out (st : ParentRelayState) (items : List StreamItem) :
    (parentRelayData st items).2 = items.map TMsg.forwarded := by
  induction items generalizing st with
  | nil => rfl
  | cons m rest ih => simp [parentRelayData, parentOnData_snd, ih]

/-- Unfolding `sidAfter` over a cons cell. -/
theorem sidAfter_cons (sid0 : Option Nat) (m : StreamItem) (rest : List StreamItem) :
    sidAfter sid0 (m :: rest)
      = sidAfter (if m.type = some "subscribe" then some m.sid else sid0) rest := rfl

/-- The sid captured by the parent-side data phase. -/
theorem parentRelayData_sid (st : ParentRelayState) (items : List StreamItem) :
    (parentRelayData st items).1.sid = sidAfter st.sid items := by
  induction items generalizing st with
  | nil => rfl
  | cons m rest ih =>
    show (parentRelayData (parentOnData st m).1 rest).1.sid = _
    rw [ih, parentOnData_fst_sid, sidAfter_cons]

/-- The sid captured by one child-side data step. -/
theorem childOnData_fst (sid : Option Nat) (m : StreamItem) :
    (childOnData sid m).1 = if m.type = some "subscribe" then some m.sid else sid := rfl

/-- Every child-side data step emits a forwarded message. -/
theorem childOnData_snd_isForwarded (sid : Option Nat) (m : StreamItem) :
    isForwarded (childOnData sid m).2 = true := rfl

/-- The sid captured by the child-side data phase. -/
theorem childRelayData_sid (sid : Option Nat) (items : List StreamItem) :
    (childRelayData sid items).1 = sidAfter sid items := by
  induction items generalizing sid with
  | nil => rfl
  | cons m rest ih =>
    show (childRelayData (childOnData sid m).1 rest).1 = _
    rw [ih, childOnData_fst, sidAfter_cons]

/-- The child-side data phase emits one message per emitted item. -/
theorem childRelayData_len (sid : Option Nat) (items : List StreamItem) :
    (childRelayData sid items).2.length = items.length := by
  induction items generalizing sid with
  | nil => rfl
  | cons m rest ih =>
    show ((childOnData sid m).2 :: (childRelayData (childOnData sid m).1 rest).2).length = _
    simp [ih]

/-- Every message of the child-side data phase is a forwarded item. -/
theorem childRelayData_forwarded (sid : Option Nat) (items : List StreamItem) :
    ∀ x ∈ (childRelayData sid items).2, isForwarded x = true := by
  induction items generalizing sid with
  | nil => intro x hx; cases hx
  | cons m rest ih =>
    intro x hx
    have hx2 : x = (childOnData sid m).2
        ∨ x ∈ (childRelayData (childOnData sid m).1 rest).2 := by
      simpa [childRelayData] using hx
    cases hx2 with
    | inl h => rw [h]; exact childOnData_snd_isForwarded _ _
    | inr h => exact ih _ x h

/-- Unfolding `hasSubscribe` over a cons cell. -/
theorem hasSubscribe_cons (m : StreamItem) (rest : List StreamItem) :
    hasSubscribe (m :: rest) = (isSubscribeItem m || hasSubscribe rest) := by
  simp [hasSubscribe, List.any_cons]

/-- When every subscribe item carries a truthy (non-zero) sid, the captured
sid is truthy exactly when a subscribe item occurred (or the initial sid was
already truthy). -/
theorem jsTruthyNat_sidAfter (items : List StreamItem) :
    ∀ sid0, (∀ m ∈ items, isSubscribeItem m = true → m.sid ≠ 0) →
      jsTruthyNat (sidAfter sid0 items) = (hasSubscribe items || jsTruthyNat sid0) := by
  induction items with
  | nil => intro sid0 _; simp [sidAfter, hasSubscribe]
  | cons m rest ih =>
    intro sid0 H
    rw [sidAfter_cons, hasSubscribe_cons]
    by_cases hm : m.type = some "subscribe"
    · have hsub : isSubscribeItem m = true := by simp [isSubscribeItem, hm]
      have hs : m.sid ≠ 0 := H m (List.mem_cons_self m rest) hsub
      rw [if_pos hm, ih (some m.sid) (fun x hx hxs => H x (List.mem_cons_of_mem m hx) hxs)]
      simp [hsub, jsTruthyNat, hs]
    · have hsub : isSubscribeItem m = false := by simp [isSubscribeItem, hm]
      rw [if_neg hm, ih sid0 (fun x hx hxs => H x (List.mem_cons_of_mem m hx) hxs)]
      simp [hsub]

/-- The messages emitted by the parent-side `end` handler. -/
theorem parentOnEnd_snd (st : ParentRelayState) :
    (parentOnEnd st).2
      = if jsTruthyNat st.sid then [TMsg.fin (st.sid.getD 0)] else [] := by
  unfold parentOnEnd
  by_cases h : jsTruthyNat st.sid = true <;> simp [h]

/-- The sid captured by the whole parent relay run is `finalSid`. -/
theorem finalSid_eq_sidAfter (items : List StreamItem) :
    sidAfter none items = finalSid items := rfl

/-- A forwarded message is never a `fin` message. -/
theorem isFin_of_forwarded (x : TMsg) (h : isForwarded x = true) : isFin x = false := by
  cases x <;> simp_all [isForwarded, isFin]

/-- C1: a relayed stream that emits N data items and then ends produces
exactly N forwarded messages followed by at most one `fin` message — sent
precisely when some emitted item was a subscribe item (revealing a truthy
subscription id) — and a stream that errors produces no `fin` at all; both
for the parent-side and the child-side relay. -/
theorem c1_stream_relay_fin (items : List StreamItem) (streams0 : List Nat) (e : JsError)
    (H : ∀ m ∈ items, isSubscribeItem m = true → m.sid ≠ 0) :
    ((parentRelayRun items StreamEnd.ended streams0).2
        = items.map TMsg.forwarded
          ++ (if hasSubscribe items then [TMsg.fin ((finalSid items).getD 0)] else []))
    ∧ ((childRelayRun items StreamEnd.ended).2
        = (childRelayData none items).2
          ++ (if hasSubscribe items then [TMsg.fin ((finalSid items).getD 0)] else []))
    ∧ (childRelayData none items).2.length = items.length
    ∧ (∀ x ∈ (childRelayData none items).2, isForwarded x = true)
    ∧ (∀ x ∈ (parentRelayRun items (StreamEnd.errored e) streams0).2, isFin x = false)
    ∧ (∀ x ∈ (childRelayRun items (StreamEnd.errored e)).2, isFin x = false) := by
  have hsid : (parentRelayData { sid := none, streams := streams0 } items).1.sid
      = finalSid items := by
    rw [parentRelayData_sid]; rfl
  have htr : jsTruthyNat (finalSid items) = hasSubscribe items := by
    have h := jsTruthyNat_sidAfter items none H
    simpa [finalSid_eq_sidAfter, jsTruthyNat] using h
  refine ⟨?_, ?_, childRelayData_len none items, childRelayData_forwarded none items, ?_, ?_⟩
  · show (parentRelayData { sid := none, streams := streams0 } items).2
        ++ (parentOnEnd (parentRelayData { sid := none, streams := streams0 } items).1).2 = _
    rw [parentRelayData_out, parentOnEnd_snd, hsid, htr]
  · show (childRelayData none items).2 ++ childOnEnd (childRelayData none items).1 = _
    rw [childRelayData_sid, finalSid_eq_sidAfter]
    unfold childOnEnd
    rw [htr]
  · intro x hx
    have hx2 : x ∈ (parentRelayData { sid := none, streams := streams0 } items).2
        ∨ x ∈ (parentOnError (parentRelayData { sid := none, streams := streams0 } items).1 e).2 := by
      simpa [parentRelayRun] using hx
    cases hx2 with
    | inl h =>
      rw [parentRelayData_out] at h
      obtain ⟨m, _, rfl⟩ := List.mem_map.mp h
      rfl
    | inr h =>
      simp [parentOnError] at h
      rw [h]; rfl
  · intro x hx
    have hx2 : x ∈ (childRelayData none items).2 ∨ x ∈ childOnError e := by
      simpa [childRelayRun] using hx
    cases hx2 with
    | inl h => exact isFin_of_forwarded x (childRelayData_forwarded none items x h)
    | inr h =>
      simp [childOnError] at h
      rw [h]; rfl

/-- Concrete stream items for the C1 witness: a subscribe item revealing
sid 5, then a plain event item. -/
def c1Items : List StreamItem :=
  [{ type := some "subscribe", sid := 5, payload := "first" },
   { type := some "event", sid := 5, payload := "second" }]

/-- A concrete stream error for the C1 witness. -/
def c1Err : JsError :=
  { message := "stream broke", stack := "at relay", status := none, asString := "Error" }

/-- Witness for C1: the two-item subscription stream relays two forwarded
messages plus one `fin`, and its errored variant contains no `fin`. -/
theorem c1_stream_relay_fin_witness :
    ((parentRelayRun c1Items StreamEnd.ended []).2
        = c1Items.map TMsg.forwarded
          ++ (if hasSubscribe c1Items then [TMsg.fin ((finalSid c1Items).getD 0)] else []))
    ∧ ((childRelayRun c1Items StreamEnd.ended).2
        = (childRelayData none c1Items).2
          ++ (if hasSubscribe c1Items then [TMsg.fin ((finalSid c1Items).getD 0)] else []))
    ∧ (childRelayData none c1Items).2.length = c1Items.length
    ∧ (∀ x ∈ (childRelayData none c1Items).2, isForwarded x = true)
    ∧ (∀ x ∈ (parentRelayRun c1Items (StreamEnd.errored c1Err) []).2, isFin x = false)
    ∧ (∀ x ∈ (childRelayRun c1Items (StreamEnd.errored c1Err)).2, isFin x = false) :=
  c1_stream_relay_fin c1Items [] c1Err (by decide)

/-- C5: a relayed stream that errors mid-flight makes the parent relay emit
the forwarded items followed by exactly one `error`-typed message carrying
the error's message and stack, with status the error's own status (500 when
it carries none), and the stream registration for the captured subscription
id is removed. -/
theorem c5_stream_error_relay (items : List StreamItem) (streams0 : List Nat) (e : JsError)
    (H1 : e.message ≠ "")
    (H2 : e.status = none ∨ ∃ s, e.status = some s ∧ s ≠ 0) :
    ((parentRelayRun items (StreamEnd.errored e) streams0).2
        = items.map TMsg.forwarded
          ++ [TMsg.errorMsg e.message e.stack (e.status.getD 500)])
    ∧ (parentRelayRun items (StreamEnd.errored e) streams0).2.countP isErrorMsg = 1
    ∧ (∀ s : Nat, finalSid items = some s →
        s ∉ (parentRelayRun items (StreamEnd.errored e) streams0).1.streams) := by
  have hmsg : jsOrStrVal e.message e.asString = e.message := if_neg H1
  have hstat : jsOrNatOpt e.status 500 = e.status.getD 500 := by
    cases H2 with
    | inl h => simp [jsOrNatOpt, h]
    | inr h => obtain ⟨s, hs, hne⟩ := h; simp [jsOrNatOpt, hs, hne]
  have hout : (parentRelayRun items (StreamEnd.errored e) streams0).2
      = items.map TMsg.forwarded
        ++ [TMsg.errorMsg e.message e.stack (e.status.getD 500)] := by
    show (parentRelayData { sid := none, streams := streams0 } items).2
        ++ (parentOnError (parentRelayData { sid := none, streams := streams0 } items).1 e).2 = _
    rw [parentRelayData_out]
    simp [parentOnError, hmsg, hstat]
  refine ⟨hout, ?_, ?_⟩
  · rw [hout, List.countP_append]
    have h0 : (items.map TMsg.forwarded).countP isErrorMsg = 0 := by
      rw [List.countP_eq_zero]
      intro a ha
      obtain ⟨m, _, rfl⟩ := List.mem_map.mp ha
      simp [isErrorMsg]
    rw [h0]
    simp [List.countP_cons, isErrorMsg]
  · intro s hs
    have hsid : (parentRelayData { sid := none, streams := streams0 } items).1.sid = some s := by
      rw [parentRelayData_sid, finalSid_eq_sidAfter, hs]
    show s ∉ (parentOnError (parentRelayData { sid := none, streams := streams0 } items).1 e).1.streams
    simp [parentOnError, hsid, streamsDelete]

/-- Concrete stream items for the C5 witness. -/
def c5Items : List StreamItem :=
  [{ type := some "subscribe", sid := 9, payload := "first" },
   { type := some "event", sid := 9, payload := "second" }]

/-- A concrete mid-flight stream error carrying its own status. -/
def c5Err : JsError :=
  { message := "oops", stack := "at stream", status := some 400, asString := "Error: oops" }

/-- Witness for C5: a two-item subscription stream erroring with status 400
relays two forwarded messages and exactly one error message, and sid 9 is
deregistered. -/
theorem c5_stream_error_relay_witness :
    ((parentRelayRun c5Items (StreamEnd.errored c5Err) [9]).2
        = c5Items.map TMsg.forwarded
          ++ [TMsg.errorMsg c5Err.message c5Err.stack (c5Err.status.getD 500)])
    ∧ (parentRelayRun c5Items (StreamEnd.errored c5Err) [9]).2.countP isErrorMsg = 1
    ∧ (∀ s : Nat, finalSid c5Items = some s →
        s ∉ (parentRelayRun c5Items (StreamEnd.errored c5Err) [9]).1.streams) :=
  c5_stream_error_relay c5Items [9] c5Err (by decide) (Or.inr ⟨400, rfl, by decide⟩)
